import Mathlib

/-!
Verification of the zookclient repository's self-healing persistent-node
lifecycle manager (`PersistentNode`) and the path-utility layer
(`ZooKeeperClient.CreatePersistentNode`), as a shallow embedding of the
Go source into Lean.

Modelling conventions:
* Byte slices live on an explicit heap (`Heap`, a list of byte buffers);
  a Go slice value is modelled as an index (`SliceRef`) into the heap,
  so that defensive copying versus aliasing is observable.
* The curator client is external: every outgoing network call is recorded
  as an element of an `Op` list returned by the function that issues it.
* Go methods that mutate the receiver return the updated record; an error
  return value is an `Option String` carrying the exact message.
* The `sync.WaitGroup` is modelled by its integer counter (`wgCounter`);
  `Done` decrements it, and a negative counter is the panic condition.
* Locks are not modelled: each function runs atomically, which matches the
  source's lock discipline for the state it touches.
-/

namespace Zookclient

/-- Byte content of a single buffer. -/
abbrev Bytes := List Nat

/-- The heap of allocated byte buffers; a Go slice is an index into it. -/
abbrev Heap := List Bytes

/-- A reference to a buffer on the heap (a Go slice value). -/
abbrev SliceRef := Nat

/-- Dereference a slice: the byte content it points at. -/
def readSlice (heap : Heap) (r : SliceRef) : Bytes := heap.getD r []

/-- Overwrite the buffer a slice points at (a caller writing through it). -/
def writeSlice (heap : Heap) (r : SliceRef) (b : Bytes) : Heap := heap.set r b

/-- Lifecycle states of the manager (source: `StateType`). -/
inductive StateType
  | Latent
  | Started
  | Closed
deriving DecidableEq, Repr

/-- Curator create modes (source: `curator.CreateMode`). -/
inductive CreateMode
  | PERSISTENT
  | EPHEMERAL
  | PERSISTENT_SEQUENTIAL
  | EPHEMERAL_SEQUENTIAL
deriving DecidableEq, Repr

/-- Error outcomes a curator event can carry, as the callbacks
distinguish them (`ErrNothing` is a nil error). -/
inductive CuratorErr
  | ErrNothing
  | ErrNodeExists
  | ErrNoAuth
  | ErrNoNode
  | ErrOther
deriving DecidableEq, Repr

/-- The fields of a curator event that the callbacks read. -/
structure CuratorEvent where
  err : CuratorErr
  path : String
  name : String
deriving DecidableEq, Repr

/-- Connection states delivered to the connection-state listener. -/
inductive ConnectionState
  | CONNECTED
  | RECONNECTED
  | LOST
  | SUSPENDED
deriving DecidableEq, Repr

/-- Watch event types the node watcher distinguishes. -/
inductive WatchEventType
  | DELETE
  | SET_DATA
  | OtherEvent
deriving DecidableEq, Repr

/-- An outgoing call against the curator client, recorded instead of
performed. `create` carries target path, mode, payload slice and
parents-if-needed; `setDataBg` is the fire-and-forget set-data issued by
`SetData`; `setDataCb` is the set-data issued with `setDataCallback`
attached; `delete` carries delete-children-if-needed; `checkExists` is
the watch-arming existence check; listener (de)registration is recorded
too. -/
inductive Op
  | create (path : String) (mode : CreateMode) (dataRef : SliceRef) (parents : Bool)
  | setDataBg (path : String) (dataRef : SliceRef)
  | setDataCb (path : String) (dataRef : SliceRef)
  | delete (path : String) (withChildren : Bool)
  | checkExists (path : String)
  | addListener
  | removeListener
deriving DecidableEq, Repr

/-- The manager's state (source: struct `PersistentNode`). The curator
client, the stored closures and the mutex are not data here: the closures
are the top-level functions below, calls to the client are recorded as
`Op`s, and the `sync.WaitGroup` is its counter. -/
structure PersistentNode where
  mode : CreateMode
  useProtection : Bool
  basePath : String
  data : SliceRef
  state : StateType
  authFailure : Bool
  nodePath : String
  wgCounter : Int
deriving DecidableEq, Repr

namespace PersistentNode

/-- Source: `PersistentNode.isActive`. -/
def isActive (p : PersistentNode) : Bool := p.state == .Started

/-- Source: `PersistentNode.getCreateMode`. -/
def getCreateMode (p : PersistentNode) (isPathSet : Bool) : CreateMode :=
  let m := p.mode
  if isPathSet then
    match p.mode with
    | .EPHEMERAL_SEQUENTIAL => .EPHEMERAL
    | .PERSISTENT_SEQUENTIAL => .PERSISTENT
    | _ => m
  else m

/-- Source: `PersistentNode.createNode`. Issues an asynchronous create
(with the background callback attached) unless the manager is not active;
mutates nothing, so only the issued ops are returned. -/
def createNode (p : PersistentNode) : List Op :=
  if !p.isActive then []
  else
    let existingPath := p.nodePath
    let createPath := if existingPath.length > 0 && !p.useProtection then
        existingPath
      else p.basePath
    [.create createPath (p.getCreateMode (existingPath.length > 0)) p.data true]

/-- Source: `PersistentNode.watchNode`. -/
def watchNode (p : PersistentNode) : List Op :=
  if !p.isActive then []
  else if p.nodePath.length > 0 then [.checkExists p.nodePath]
  else []

/-- Source: `PersistentNode.deleteNode`. The synchronous delete is issued
only when a node path is known. -/
def deleteNode (p : PersistentNode) : List Op :=
  if p.nodePath.length > 0 then [.delete p.nodePath true] else []

/-- Source: `PersistentNode.Start`. Fails only when already Started;
otherwise registers the connection-state listener, calls `createNode`
(while the state is still the old one), then sets the state to Started. -/
def Start (p : PersistentNode) : PersistentNode × List Op × Option String :=
  if p.state == .Started then (p, [], some "already started")
  else
    let ops := [Op.addListener] ++ p.createNode
    ({ p with state := .Started }, ops, none)

/-- Source: `PersistentNode.Close`. `deleteResult` is the error the
synchronous delete would return if it is issued; on a delete error the
state is left unchanged and the error surfaced. -/
def Close (p : PersistentNode) (deleteResult : Option String) :
    PersistentNode × List Op × Option String :=
  if p.state != .Started then (p, [], some "not started")
  else
    let ops := [Op.removeListener] ++ p.deleteNode
    let derr := if p.nodePath.length > 0 then deleteResult else none
    match derr with
    | some e => (p, ops, some e)
    | none => ({ p with state := .Closed }, ops, none)

/-- Source: `PersistentNode.ActualPath`. -/
def ActualPath (p : PersistentNode) : String := p.nodePath

/-- Source: `PersistentNode.GetData`. Returns the stored slice itself,
with no copy. -/
def GetData (p : PersistentNode) : SliceRef := p.data

/-- Source: `PersistentNode.IsAuthFailure`. -/
def IsAuthFailure (p : PersistentNode) : Bool := p.authFailure

/-- Source: `PersistentNode.SetData`. `d` is `none` for a nil slice.
`sendErr` is the synchronous error the background set-data builder call
would return if it is issued (the payload is already stored when that
error surfaces, as in the source). -/
def SetData (heap : Heap) (p : PersistentNode) (d : Option SliceRef)
    (sendErr : Option String) :
    Heap × PersistentNode × List Op × Option String :=
  let dLen := match d with
    | none => 0
    | some r => (readSlice heap r).length
  if d == none || dLen == 0 then (heap, p, [], some "data is empty")
  else if p.nodePath.length == 0 then
    (heap, p, [], some "initial create has not been processed")
  else
    match d with
    | none => (heap, p, [], some "data is empty")
    | some r =>
      let heap2 := heap ++ [readSlice heap r]
      let p2 := { p with data := heap.length }
      if p2.isActive then
        match sendErr with
        | some e => (heap2, p2, [Op.setDataBg p2.nodePath p2.data], some e)
        | none => (heap2, p2, [Op.setDataBg p2.nodePath p2.data], none)
      else (heap2, p2, [], none)

/-- Source: `PersistentNode.processBackgroundCallbackClosedState`. -/
def processBackgroundCallbackClosedState (_p : PersistentNode)
    (event : CuratorEvent) : List Op :=
  let path := if event.err == .ErrNodeExists then event.path
    else if event.err == .ErrNothing then event.name
    else ""
  if path.length > 0 then [.delete path true] else []

/-- Source: `PersistentNode.processBackgroundCallback`. On NO_AUTH the
sticky flag is set and the callback returns; a known path records it,
clears `authFailure`, arms the watch and either reconciles content
(already-exists) or signals the wait group (fresh creation); an unknown
path retries the create. -/
def processBackgroundCallback (p : PersistentNode) (event : CuratorEvent) :
    PersistentNode × List Op :=
  let path := if event.err == .ErrNodeExists then event.path
    else if event.err == .ErrNothing then event.name
    else ""
  let nodeExists := event.err == .ErrNodeExists
  if event.err == .ErrNoAuth then ({ p with authFailure := true }, [])
  else if path.length > 0 then
    let p2 := { p with authFailure := false, nodePath := path }
    if nodeExists then
      (p2, p2.watchNode ++ [Op.setDataCb p2.nodePath p2.data])
    else
      ({ p2 with wgCounter := p2.wgCounter - 1 }, p2.watchNode)
  else (p, p.createNode)

/-- Source: the `backgroundCallback` closure built in `NewPersistentNode`:
dispatches on the state observed at callback time. -/
def backgroundCallback (p : PersistentNode) (ev : CuratorEvent) :
    PersistentNode × List Op :=
  if p.state == .Started then p.processBackgroundCallback ev
  else (p, p.processBackgroundCallbackClosedState ev)

/-- Source: the `connectionStateListener` closure built in
`NewPersistentNode`. -/
def connectionStateListener (p : PersistentNode) (newState : ConnectionState) :
    List Op :=
  if newState == .RECONNECTED then p.createNode else []

/-- Source: the `watcher` closure built in `NewPersistentNode`. -/
def watcherFire (p : PersistentNode) (t : WatchEventType) : List Op :=
  if t == .DELETE then p.createNode
  else if t == .SET_DATA then p.watchNode
  else []

/-- Source: the `setDataCallback` closure built in `NewPersistentNode`:
on a nil error it signals the wait group. -/
def setDataCallback (p : PersistentNode) (ev : CuratorEvent) : PersistentNode :=
  if ev.err == .ErrNothing then { p with wgCounter := p.wgCounter - 1 }
  else p

/-- A `sync.WaitGroup` whose counter has gone negative panics. -/
def wgNegative (p : PersistentNode) : Bool := p.wgCounter < 0

end PersistentNode

/-- Source: `NewPersistentNode`. The initial payload is copied into a
fresh buffer; the state is Latent, `authFailure` false, and the wait
group counter is raised to one. -/
def NewPersistentNode (heap : Heap) (mode : CreateMode) (protection : Bool)
    (basePath : String) (initData : SliceRef) : Heap × PersistentNode :=
  (heap ++ [readSlice heap initData],
   { mode := mode
     useProtection := protection
     basePath := basePath
     data := heap.length
     state := .Latent
     authFailure := false
     nodePath := ""
     wgCounter := 1 })

namespace ZooKeeperClient

/-- An outgoing call of the path-utility layer. -/
inductive UOp
  | create (path : String) (mode : CreateMode) (data : Bytes) (parents : Bool)
  | checkExistsWatched (path : String)
deriving DecidableEq, Repr

/-- Source: `ZooKeeperClient.CreatePersistentNode`. `marshal` is the
result of `json.Marshal(obj)`; `createResult` is the (assigned path,
error) pair returned by the synchronous create; `checkExistsErr` is the
error of the watched existence check on the assigned path. The source's
error check after the create compares the error variable to itself
(`if err != err`), embedded here literally; its first return component is
the `interface{}` result, which the source never sets to the created
path. -/
def CreatePersistentNode (path : String) (marshal : Except String Bytes)
    (createResult : String × Option String) (checkExistsErr : Option String) :
    (Option String × Option String) × List UOp :=
  match marshal with
  | .error e => ((none, some e), [])
  | .ok b =>
    let p := createResult.1
    let err := createResult.2
    if err ≠ err then ((none, err), [UOp.create path .EPHEMERAL b true])
    else
      match checkExistsErr with
      | some e => ((none, some e),
          [UOp.create path .EPHEMERAL b true, UOp.checkExistsWatched p])
      | none => ((none, none),
          [UOp.create path .EPHEMERAL b true, UOp.checkExistsWatched p])

end ZooKeeperClient

open PersistentNode

/-- Claim C9: for every path, the path-utility layer's
`CreatePersistentNode` creates the node with EPHEMERAL mode (not
PERSISTENT), never propagates an error from the create call — its error
check compares the error to itself, which is never true — and returns
(nil, nil) on the success path rather than the created path. Stated as a
closed form: for any marshalled payload, any create result (whatever its
error component) and any existence-check error, the outcome is
independent of the create error, issues an EPHEMERAL create, and the
returned value component is always nil. -/
theorem C9_create_persistent_node (path : String) (b : Bytes)
    (createdPath : String) (createErr : Option String)
    (checkExistsErr : Option String) :
    ZooKeeperClient.CreatePersistentNode path (.ok b) (createdPath, createErr)
        checkExistsErr =
      ((none, checkExistsErr),
       [ZooKeeperClient.UOp.create path .EPHEMERAL b true,
        ZooKeeperClient.UOp.checkExistsWatched createdPath]) := by
  unfold ZooKeeperClient.CreatePersistentNode
  simp only []
  rw [if_neg (fun h => h rfl)]
  cases checkExistsErr <;> rfl

/-- Claim C5: once `actualPath` (`nodePath`) is assigned, the retry
create mode downgrades EPHEMERAL_SEQUENTIAL to EPHEMERAL and
PERSISTENT_SEQUENTIAL to PERSISTENT while leaving non-sequential modes
unchanged, and the retry create targets exactly the previously assigned
path when `useProtection` is false, otherwise the base path. -/
theorem C5_retry_mode_and_target (p : PersistentNode)
    (hpath : p.nodePath.length > 0) :
    (p.mode = .EPHEMERAL_SEQUENTIAL → p.getCreateMode true = .EPHEMERAL) ∧
    (p.mode = .PERSISTENT_SEQUENTIAL → p.getCreateMode true = .PERSISTENT) ∧
    (p.mode = .PERSISTENT → p.getCreateMode true = .PERSISTENT) ∧
    (p.mode = .EPHEMERAL → p.getCreateMode true = .EPHEMERAL) ∧
    (p.isActive = true →
      p.createNode =
        [.create (if p.useProtection then p.basePath else p.nodePath)
          (p.getCreateMode true) p.data true]) := by
  refine ⟨?_, ?_, ?_, ?_, ?_⟩ <;> intro h
  · simp [getCreateMode, h]
  · simp [getCreateMode, h]
  · simp [getCreateMode, h]
  · simp [getCreateMode, h]
  · unfold createNode
    rw [h]
    simp only [Bool.not_true, Bool.false_eq_true, if_false]
    have hlen : decide (p.nodePath.length > 0) = true := decide_eq_true hpath
    simp only [hlen, Bool.true_and]
    cases hu : p.useProtection <;> simp

/-- Claim C5 witness: a concrete EPHEMERAL_SEQUENTIAL manager with an
assigned path, no protection, retries at that path with mode EPHEMERAL. -/
theorem C5_retry_mode_and_target_witness :
    PersistentNode.createNode
        { mode := .EPHEMERAL_SEQUENTIAL, useProtection := false,
          basePath := "/a", data := 0, state := .Started,
          authFailure := false, nodePath := "/a0001", wgCounter := 0 } =
      [.create "/a0001"
        (PersistentNode.getCreateMode
          { mode := .EPHEMERAL_SEQUENTIAL, useProtection := false,
            basePath := "/a", data := 0, state := .Started,
            authFailure := false, nodePath := "/a0001", wgCounter := 0 } true)
        0 true] :=
  (C5_retry_mode_and_target
    { mode := .EPHEMERAL_SEQUENTIAL, useProtection := false,
      basePath := "/a", data := 0, state := .Started,
      authFailure := false, nodePath := "/a0001", wgCounter := 0 }
    (by decide)).2.2.2.2 rfl

/-- Claim C4: a create callback delivered while the manager is not in the
Started state, whose outcome shows a node now exists (node-already-exists
with its path, or a successful creation reporting an assigned name),
issues exactly one deletion of that node with its children and leaves the
manager unchanged — no self-heal logic runs. -/
theorem C4_closed_callback_deletes (p : PersistentNode) (ev : CuratorEvent)
    (hs : p.state ≠ .Started) :
    (ev.err = .ErrNodeExists → ev.path.length > 0 →
      p.backgroundCallback ev = (p, [.delete ev.path true])) ∧
    (ev.err = .ErrNothing → ev.name.length > 0 →
      p.backgroundCallback ev = (p, [.delete ev.name true])) := by
  constructor <;> intro he hlen <;>
    simp [backgroundCallback, processBackgroundCallbackClosedState, hs, he,
      Nat.pos_iff_ne_zero.mp hlen]

/-- Claim C4 witness: a Closed manager receiving an already-exists
outcome at "/a" deletes "/a" with children. -/
theorem C4_closed_callback_deletes_witness :
    PersistentNode.backgroundCallback
        { mode := .PERSISTENT, useProtection := false, basePath := "/a",
          data := 0, state := .Closed, authFailure := false,
          nodePath := "/a", wgCounter := 0 }
        { err := .ErrNodeExists, path := "/a", name := "" } =
      ({ mode := .PERSISTENT, useProtection := false, basePath := "/a",
         data := 0, state := .Closed, authFailure := false,
         nodePath := "/a", wgCounter := 0 }, [.delete "/a" true]) :=
  (C4_closed_callback_deletes
    { mode := .PERSISTENT, useProtection := false, basePath := "/a",
      data := 0, state := .Closed, authFailure := false,
      nodePath := "/a", wgCounter := 0 }
    { err := .ErrNodeExists, path := "/a", name := "" }
    (by decide)).1 rfl (by decide)

/-- Claim C1 (code behavior at the claimed scenario): for every freshly
constructed manager (state Latent), `Start` succeeds — it registers the
connection-state listener and sets the state to Started — but the list of
issued operations is exactly the listener registration: no create
operation is issued, because `createNode` runs before the state is set to
Started and no-ops on `isActive` being false. This contradicts the claim
that at least one create has been issued after `Start` returns nil. -/
theorem C1_start_issues_no_create (heap : Heap) (mode : CreateMode)
    (protection : Bool) (basePath : String) (initData : SliceRef) :
    (((NewPersistentNode heap mode protection basePath initData).2).Start).1.state
        = .Started ∧
    (((NewPersistentNode heap mode protection basePath initData).2).Start).2.2
        = none ∧
    (((NewPersistentNode heap mode protection basePath initData).2).Start).2.1
        = [Op.addListener] :=
  ⟨rfl, rfl, rfl⟩

/-- Claim C3 counterexample: run a manager through Latent → Started →
Closed, then call `Start` again: it returns nil and moves the state back
to Started, so `Start` does not fail on a Closed manager and
`lifecycleState` regresses from Closed to Started. -/
theorem C3_counterexample :
    ((((NewPersistentNode [[1]] .PERSISTENT false "/a" 0).2).Start.1.Close
        none).1.state = .Closed) ∧
    ((((NewPersistentNode [[1]] .PERSISTENT false "/a" 0).2).Start.1.Close
        none).1.Start.2.2 = none) ∧
    ((((NewPersistentNode [[1]] .PERSISTENT false "/a" 0).2).Start.1.Close
        none).1.Start.1.state = .Started) := ⟨rfl, rfl, rfl⟩

/-- Claim C3 amended: `Start` fails (with "already started", state
unchanged) exactly when the state is already Started; from any other
state — including Closed — it succeeds and sets the state to Started, so
the Latent → Started → Closed ordering can regress from Closed. `Close`
fails (state unchanged) exactly when the state is not Started, and on a
successful delete moves a Started manager to Closed. -/
theorem C3_amended (p : PersistentNode) (deleteResult : Option String) :
    (p.state = .Started → p.Start = (p, [], some "already started")) ∧
    (p.state ≠ .Started → p.Start.2.2 = none ∧ p.Start.1.state = .Started) ∧
    (p.state ≠ .Started → p.Close deleteResult = (p, [], some "not started")) ∧
    (p.state = .Started → (p.Close deleteResult).2.2 = none →
      (p.Close deleteResult).1.state = .Closed) := by
  refine ⟨?_, ?_, ?_, ?_⟩
  · intro h; simp [Start, h]
  · intro h; simp [Start, h]
  · intro h; simp [Close, h]
  · intro h
    unfold Close
    rw [h]
    simp only [bne_self_eq_false, Bool.false_eq_true, if_false]
    rcases hd : (if p.nodePath.length > 0 then deleteResult else none) with _ | e
    · intro _; rfl
    · intro hc; simp at hc

/-- Claim C3 amended witness: `Start` on a Started manager returns the
"already started" error, and on a Closed manager returns no error. -/
theorem C3_amended_witness :
    PersistentNode.Start
        { mode := .PERSISTENT, useProtection := false, basePath := "/a",
          data := 0, state := .Started, authFailure := false,
          nodePath := "", wgCounter := 0 } =
      ({ mode := .PERSISTENT, useProtection := false, basePath := "/a",
         data := 0, state := .Started, authFailure := false,
         nodePath := "", wgCounter := 0 }, [], some "already started") ∧
    (PersistentNode.Start
        { mode := .PERSISTENT, useProtection := false, basePath := "/a",
          data := 0, state := .Closed, authFailure := false,
          nodePath := "", wgCounter := 0 }).2.2 = none :=
  ⟨(C3_amended
      { mode := .PERSISTENT, useProtection := false, basePath := "/a",
        data := 0, state := .Started, authFailure := false,
        nodePath := "", wgCounter := 0 } none).1 rfl,
   ((C3_amended
      { mode := .PERSISTENT, useProtection := false, basePath := "/a",
        data := 0, state := .Closed, authFailure := false,
        nodePath := "", wgCounter := 0 } none).2.1 (by decide)).1⟩

/-- Claim C2 counterexample: a Started manager that has just observed a
NO_AUTH create outcome (so `IsAuthFailure` returns true) still issues a
create attempt on the next RECONNECTED connection event — `createNode`
never consults `authFailure`, so the claim that no further create is ever
issued after an auth failure is false. -/
theorem C2_counterexample :
    (PersistentNode.processBackgroundCallback
        { mode := .PERSISTENT, useProtection := false, basePath := "/a",
          data := 0, state := .Started, authFailure := false,
          nodePath := "", wgCounter := 1 }
        { err := .ErrNoAuth, path := "/a", name := "" }).1.IsAuthFailure
      = true ∧
    (PersistentNode.processBackgroundCallback
        { mode := .PERSISTENT, useProtection := false, basePath := "/a",
          data := 0, state := .Started, authFailure := false,
          nodePath := "", wgCounter := 1 }
        { err := .ErrNoAuth, path := "/a", name := "" }).1.connectionStateListener
        .RECONNECTED
      = [Op.create "/a" .PERSISTENT 0 true] := ⟨rfl, rfl⟩

/-- Claim C2 amended: a NO_AUTH create outcome sets `authFailure` (so
`IsAuthFailure` returns true) and the NO_AUTH callback itself issues no
operation; however `createNode` does not consult `authFailure`, so any
later trigger (delete-watch fire, RECONNECTED event) on a manager still
in the Started state issues a create attempt regardless of the flag; and
any later callback that records a path — already-exists with its path,
or a successful creation with an assigned name — clears `authFailure`
again. -/
theorem C2_amended (p : PersistentNode) (ev : CuratorEvent)
    (h : ev.err = .ErrNoAuth) :
    p.processBackgroundCallback ev = ({ p with authFailure := true }, []) ∧
    ({ p with authFailure := true } : PersistentNode).IsAuthFailure = true ∧
    (∀ q : PersistentNode,
      PersistentNode.createNode { q with authFailure := true } =
        PersistentNode.createNode { q with authFailure := false }) ∧
    (∀ q : PersistentNode, q.state = .Started →
      q.connectionStateListener .RECONNECTED = q.createNode ∧
      q.createNode ≠ []) ∧
    (∀ (q : PersistentNode) (ev2 : CuratorEvent),
      (ev2.err = .ErrNodeExists ∧ ev2.path.length > 0) ∨
        (ev2.err = .ErrNothing ∧ ev2.name.length > 0) →
      (q.processBackgroundCallback ev2).1.authFailure = false) := by
  refine ⟨?_, rfl, fun q => rfl, fun q hq => ⟨rfl, ?_⟩, ?_⟩
  · simp [processBackgroundCallback, h]
  · simp [createNode, isActive, hq]
  · rintro q ev2 (⟨he, hp⟩ | ⟨he, hn⟩)
    · simp [processBackgroundCallback, he, hp]
    · simp [processBackgroundCallback, he, hn]

/-- Claim C2 amended witness: the concrete NO_AUTH event on a concrete
Started manager sets the flag and issues nothing, and a subsequent
successful-creation callback on the flagged manager clears the flag. -/
theorem C2_amended_witness :
    ({ err := .ErrNoAuth, path := "/a", name := "" } : CuratorEvent).err
      = .ErrNoAuth ∧
    PersistentNode.processBackgroundCallback
        { mode := .PERSISTENT, useProtection := false, basePath := "/a",
          data := 0, state := .Started, authFailure := false,
          nodePath := "", wgCounter := 1 }
        { err := .ErrNoAuth, path := "/a", name := "" } =
      ({ mode := .PERSISTENT, useProtection := false, basePath := "/a",
         data := 0, state := .Started, authFailure := true,
         nodePath := "", wgCounter := 1 }, []) ∧
    (PersistentNode.processBackgroundCallback
        { mode := .PERSISTENT, useProtection := false, basePath := "/a",
          data := 0, state := .Started, authFailure := true,
          nodePath := "", wgCounter := 1 }
        { err := .ErrNothing, path := "", name := "/a" }).1.authFailure
      = false :=
  ⟨rfl,
   (C2_amended
     { mode := .PERSISTENT, useProtection := false, basePath := "/a",
       data := 0, state := .Started, authFailure := false,
       nodePath := "", wgCounter := 1 }
     { err := .ErrNoAuth, path := "/a", name := "" } rfl).1,
   (C2_amended
     { mode := .PERSISTENT, useProtection := false, basePath := "/a",
       data := 0, state := .Started, authFailure := false,
       nodePath := "", wgCounter := 1 }
     { err := .ErrNoAuth, path := "/a", name := "" } rfl).2.2.2.2
     { mode := .PERSISTENT, useProtection := false, basePath := "/a",
       data := 0, state := .Started, authFailure := true,
       nodePath := "", wgCounter := 1 }
     { err := .ErrNothing, path := "", name := "/a" }
     (Or.inr ⟨rfl, by decide⟩)⟩

/-- Claim C6 counterexample: on a concrete manager, `GetData` returns the
manager's internal slice itself (no copy), so a caller writing through
the returned slice changes the manager's stored payload from [1,2,3] to
[9] — a caller-held buffer aliases the internal payload. -/
theorem C6_counterexample :
    (NewPersistentNode [[1, 2, 3]] .PERSISTENT false "/a" 0).2.GetData
      = (NewPersistentNode [[1, 2, 3]] .PERSISTENT false "/a" 0).2.data ∧
    readSlice (NewPersistentNode [[1, 2, 3]] .PERSISTENT false "/a" 0).1
      (NewPersistentNode [[1, 2, 3]] .PERSISTENT false "/a" 0).2.data
      = [1, 2, 3] ∧
    readSlice
      (writeSlice (NewPersistentNode [[1, 2, 3]] .PERSISTENT false "/a" 0).1
        ((NewPersistentNode [[1, 2, 3]] .PERSISTENT false "/a" 0).2.GetData)
        [9])
      (NewPersistentNode [[1, 2, 3]] .PERSISTENT false "/a" 0).2.data
      = [9] := ⟨rfl, rfl, rfl⟩

/-- Claim C6 amended: the payload is defensively copied on construction
and on `SetData` — the stored slice is a fresh buffer distinct from every
caller-held reference into the old heap — but `GetData` returns the
stored slice itself with no copy, so the read side aliases the internal
payload. -/
theorem C6_amended (heap : Heap) (mode : CreateMode) (prot : Bool)
    (bp : String) (r : SliceRef) (p : PersistentNode)
    (sendErr : Option String) (hr : r < heap.length) :
    ((NewPersistentNode heap mode prot bp r).2.data = heap.length ∧
     readSlice (NewPersistentNode heap mode prot bp r).1 heap.length
       = readSlice heap r ∧
     r ≠ heap.length) ∧
    ((readSlice heap r).length > 0 → p.nodePath.length > 0 →
      (p.SetData heap (some r) sendErr).2.1.data = heap.length ∧
      readSlice (p.SetData heap (some r) sendErr).1 heap.length
        = readSlice heap r) ∧
    p.GetData = p.data := by
  refine ⟨⟨rfl, ?_, Nat.ne_of_lt hr⟩, ?_, rfl⟩
  · simp [NewPersistentNode, readSlice, List.getD_eq_getElem?_getD,
      List.getElem?_concat_length]
  · intro h1 h2
    unfold SetData
    simp only [Option.some.injEq]
    have e1 : (some r == (none : Option SliceRef)) = false := rfl
    have e2 : ((readSlice heap r).length == 0) = false := by
      simp [Nat.pos_iff_ne_zero.mp h1]
    have e3 : (p.nodePath.length == 0) = false := by
      simp [Nat.pos_iff_ne_zero.mp h2]
    simp only [e1, e2, e3, Bool.false_or, Bool.or_false, if_false,
      Bool.false_eq_true]
    cases hA : PersistentNode.isActive { p with data := heap.length } <;>
      cases sendErr <;>
      simp [readSlice, List.getD_eq_getElem?_getD, List.getElem?_concat_length]

/-- Claim C6 amended witness: concrete instance of the constructor copy
and the `SetData` copy. -/
theorem C6_amended_witness :
    (NewPersistentNode [[1, 2]] .PERSISTENT false "/a" 0).2.data = 1 ∧
    (PersistentNode.SetData [[1, 2]]
        { mode := .PERSISTENT, useProtection := false, basePath := "/a",
          data := 0, state := .Started, authFailure := false,
          nodePath := "/a", wgCounter := 0 }
        (some 0) none).2.1.data = 1 :=
  ⟨(C6_amended [[1, 2]] .PERSISTENT false "/a" 0
      { mode := .PERSISTENT, useProtection := false, basePath := "/a",
        data := 0, state := .Started, authFailure := false,
        nodePath := "/a", wgCounter := 0 } none (by decide)).1.1,
   ((C6_amended [[1, 2]] .PERSISTENT false "/a" 0
      { mode := .PERSISTENT, useProtection := false, basePath := "/a",
        data := 0, state := .Started, authFailure := false,
        nodePath := "/a", wgCounter := 0 } none (by decide)).2.1
      (by decide) (by decide)).1⟩

/-- Claim C7: `SetData` returns the "data is empty" error on a nil or
empty payload, and the "initial create has not been processed" error when
no `actualPath` has been assigned; in every error case the heap, the
whole manager state and the (empty) list of issued operations show that
nothing changed and no network call was made. -/
theorem C7_setdata_errors (heap : Heap) (p : PersistentNode)
    (d : Option SliceRef) (sendErr : Option String) :
    (d = none →
      p.SetData heap d sendErr = (heap, p, [], some "data is empty")) ∧
    (∀ r, d = some r → (readSlice heap r).length = 0 →
      p.SetData heap d sendErr = (heap, p, [], some "data is empty")) ∧
    (∀ r, d = some r → (readSlice heap r).length > 0 →
      p.nodePath.length = 0 →
      p.SetData heap d sendErr =
        (heap, p, [], some "initial create has not been processed")) := by
  refine ⟨?_, ?_, ?_⟩
  · intro h; subst h; rfl
  · intro r hd hlen; subst hd; simp [SetData, hlen]
  · intro r hd hlen hnp; subst hd
    simp [SetData, hnp, Nat.pos_iff_ne_zero.mp hlen]

/-- Claim C7 witness: concrete instances of the nil-payload error and the
no-path-yet error. -/
theorem C7_setdata_errors_witness :
    PersistentNode.SetData [[1]]
        { mode := .PERSISTENT, useProtection := false, basePath := "/a",
          data := 0, state := .Started, authFailure := false,
          nodePath := "", wgCounter := 0 } none none =
      ([[1]],
       { mode := .PERSISTENT, useProtection := false, basePath := "/a",
         data := 0, state := .Started, authFailure := false,
         nodePath := "", wgCounter := 0 }, [], some "data is empty") ∧
    PersistentNode.SetData [[1]]
        { mode := .PERSISTENT, useProtection := false, basePath := "/a",
          data := 0, state := .Started, authFailure := false,
          nodePath := "", wgCounter := 0 } (some 0) none =
      ([[1]],
       { mode := .PERSISTENT, useProtection := false, basePath := "/a",
         data := 0, state := .Started, authFailure := false,
         nodePath := "", wgCounter := 0 }, [],
       some "initial create has not been processed") :=
  ⟨(C7_setdata_errors [[1]]
      { mode := .PERSISTENT, useProtection := false, basePath := "/a",
        data := 0, state := .Started, authFailure := false,
        nodePath := "", wgCounter := 0 } none none).1 rfl,
   (C7_setdata_errors [[1]]
      { mode := .PERSISTENT, useProtection := false, basePath := "/a",
        data := 0, state := .Started, authFailure := false,
        nodePath := "", wgCounter := 0 } (some 0) none).2.2 0 rfl
      (by decide) (by decide)⟩

/-- Claim C8: after a `SetData` call that returns no error, `GetData`
reads back exactly the payload that was passed in, whatever the fate of
the asynchronous remote set-data operation (which is merely recorded in
the issued-operations list). -/
theorem C8_local_authority (heap : Heap) (p : PersistentNode)
    (r : SliceRef) (sendErr : Option String)
    (hlen : (readSlice heap r).length > 0) (hpath : p.nodePath.length > 0)
    (hok : (p.SetData heap (some r) sendErr).2.2.2 = none) :
    readSlice (p.SetData heap (some r) sendErr).1
      ((p.SetData heap (some r) sendErr).2.1.GetData) = readSlice heap r := by
  unfold SetData GetData
  have e2 : ((readSlice heap r).length == 0) = false := by
    simp [Nat.pos_iff_ne_zero.mp hlen]
  have e3 : (p.nodePath.length == 0) = false := by
    simp [Nat.pos_iff_ne_zero.mp hpath]
  simp only [e2, e3, Bool.or_false, Bool.false_or, if_false,
    Bool.false_eq_true]
  cases hA : PersistentNode.isActive { p with data := heap.length } <;>
    cases sendErr <;>
    simp [readSlice, List.getD_eq_getElem?_getD, List.getElem?_concat_length]

/-- Claim C8 witness: a concrete successful `SetData` immediately
visible through `GetData`. -/
theorem C8_local_authority_witness :
    readSlice
      (PersistentNode.SetData [[7, 8]]
        { mode := .PERSISTENT, useProtection := false, basePath := "/a",
          data := 0, state := .Started, authFailure := false,
          nodePath := "/a", wgCounter := 0 } (some 0) none).1
      ((PersistentNode.SetData [[7, 8]]
        { mode := .PERSISTENT, useProtection := false, basePath := "/a",
          data := 0, state := .Started, authFailure := false,
          nodePath := "/a", wgCounter := 0 } (some 0) none).2.1.GetData)
      = readSlice [[7, 8]] 0 :=
  C8_local_authority [[7, 8]]
    { mode := .PERSISTENT, useProtection := false, basePath := "/a",
      data := 0, state := .Started, authFailure := false,
      nodePath := "/a", wgCounter := 0 } 0 none (by decide) (by decide) rfl

/-- Claim C10: the wait-group counter starts at one; the done signal is
delivered on every successful fresh-creation callback (nil error with an
assigned name) and on every successful set-data-reconciliation callback,
with no only-once guard; hence once the counter has reached zero, a
second such signal drives it negative — the wait-group panic condition. -/
theorem C10_waitgroup (heap : Heap) (mode : CreateMode) (prot : Bool)
    (bp : String) (r : SliceRef) (p : PersistentNode) (ev : CuratorEvent) :
    ((NewPersistentNode heap mode prot bp r).2.wgCounter = 1) ∧
    (ev.err = .ErrNothing → ev.name.length > 0 →
      (p.processBackgroundCallback ev).1.wgCounter = p.wgCounter - 1) ∧
    (ev.err = .ErrNothing →
      (p.setDataCallback ev).wgCounter = p.wgCounter - 1) ∧
    (p.wgCounter = 0 → ev.err = .ErrNothing → ev.name.length > 0 →
      (p.processBackgroundCallback ev).1.wgNegative = true) ∧
    (p.wgCounter = 0 → ev.err = .ErrNothing →
      (p.setDataCallback ev).wgNegative = true) := by
  have hcb : ∀ (q : PersistentNode) (e : CuratorEvent),
      e.err = .ErrNothing → e.name.length > 0 →
      (q.processBackgroundCallback e).1.wgCounter = q.wgCounter - 1 := by
    intro q e he hn
    simp [processBackgroundCallback, he, hn]
  have hsd : ∀ (q : PersistentNode) (e : CuratorEvent),
      e.err = .ErrNothing →
      (q.setDataCallback e).wgCounter = q.wgCounter - 1 := by
    intro q e he; simp [setDataCallback, he]
  refine ⟨rfl, hcb p ev, hsd p ev, ?_, ?_⟩
  · intro h0 he hn
    simp [wgNegative, hcb p ev he hn, h0]
  · intro h0 he
    simp [wgNegative, hsd p ev he, h0]

/-- Claim C10 witness: on a manager whose counter already reached zero, a
second successful-creation signal makes the counter negative. -/
theorem C10_waitgroup_witness :
    (PersistentNode.processBackgroundCallback
        { mode := .PERSISTENT, useProtection := false, basePath := "/a",
          data := 0, state := .Started, authFailure := false,
          nodePath := "/a", wgCounter := 0 }
        { err := .ErrNothing, path := "", name := "/a" }).1.wgNegative
      = true :=
  (C10_waitgroup [] .PERSISTENT false "/a" 0
    { mode := .PERSISTENT, useProtection := false, basePath := "/a",
      data := 0, state := .Started, authFailure := false,
      nodePath := "/a", wgCounter := 0 }
    { err := .ErrNothing, path := "", name := "/a" }).2.2.2.1 rfl rfl
    (by decide)

end Zookclient
